import Mathlib

/-!
Verification of the session-controller state machine of `pomodoro.py`
(misrasaurabh1/pomodoro-mac).

The embedding below translates the timer-related parts of class
`PomodoroApp` into pure Lean functions.  UI concerns (menu-item titles,
notifications, the menu-bar title string) and thread scheduling are
dropped; the shared mutable fields of the object become the fields of a
`PomodoroApp` structure, and each method becomes a function
`PomodoroApp → PomodoroApp`.

`time_remaining` and the three configured durations are modelled as `ℤ`
(Python integers), so that non-negativity of the countdown is a real
statement rather than an artifact of using `ℕ`.  The idle probe
`get_idle_time` returns a float in the source; its value only ever feeds
the comparison `idle_time < 3`, which we model exactly over `ℚ`.
-/

/-- The `TimerState` enum of `pomodoro.py` (lines 85-90). -/
inductive TimerState where
  | IDLE
  | FOCUS
  | SHORT_REST
  | LONG_REST
  | WAITING_FOR_USER
deriving DecidableEq, Repr

/-- The timer-relevant mutable state of class `PomodoroApp`
(`__init__`, lines 117-129).  The four duration/threshold settings are
carried in the state; no operation of the program ever modifies them
(the Settings menu items have no callbacks). -/
structure PomodoroApp where
  focus_duration : ℤ
  short_rest_duration : ℤ
  long_rest_duration : ℤ
  sessions_until_long_rest : ℕ
  state : TimerState
  time_remaining : ℤ
  completed_sessions : ℕ
  sessions_today : ℕ
  running : Bool
deriving DecidableEq, Repr

/-- The state built by `PomodoroApp.__init__` (lines 117-129):
25-minute focus, 5-minute short rest, 15-minute long rest, long rest
every 4th session, idle, counters at zero, not running. -/
def initState : PomodoroApp :=
  { focus_duration := 25 * 60
    short_rest_duration := 5 * 60
    long_rest_duration := 15 * 60
    sessions_until_long_rest := 4
    state := TimerState.IDLE
    time_remaining := 0
    completed_sessions := 0
    sessions_today := 0
    running := false }

/-- `PomodoroApp.start_focus` (lines 247-262): unconditionally enter
`FOCUS` with the full focus duration and set `running`.  Notification
and thread start are side effects outside the state machine. -/
def start_focus (s : PomodoroApp) : PomodoroApp :=
  { s with state := TimerState.FOCUS
           time_remaining := s.focus_duration
           running := true }

/-- `PomodoroApp.start_rest` (lines 264-284): enter `LONG_REST` with the
long-rest duration when `is_long`, else `SHORT_REST` with the short-rest
duration, and set `running`. -/
def start_rest (is_long : Bool) (s : PomodoroApp) : PomodoroApp :=
  if is_long then
    { s with state := TimerState.LONG_REST
             time_remaining := s.long_rest_duration
             running := true }
  else
    { s with state := TimerState.SHORT_REST
             time_remaining := s.short_rest_duration
             running := true }

/-- `PomodoroApp.skip_to_rest` (lines 286-290): only in `FOCUS`, choose
the rest type by `(completed_sessions + 1) % sessions_until_long_rest == 0`
without incrementing the counter, and start that rest. -/
def skip_to_rest (s : PomodoroApp) : PomodoroApp :=
  if s.state = TimerState.FOCUS then
    start_rest ((s.completed_sessions + 1) % s.sessions_until_long_rest == 0) s
  else s

/-- `PomodoroApp.skip_to_focus` (lines 292-295): only in `SHORT_REST` or
`LONG_REST`, start a focus session. -/
def skip_to_focus (s : PomodoroApp) : PomodoroApp :=
  if s.state = TimerState.SHORT_REST ∨ s.state = TimerState.LONG_REST then
    start_focus s
  else s

/-- `PomodoroApp.stop_timer` (lines 297-303): clear `running`, return to
`IDLE`, zero the countdown. -/
def stop_timer (s : PomodoroApp) : PomodoroApp :=
  { s with running := false
           state := TimerState.IDLE
           time_remaining := 0 }

/-- The entry of `PomodoroApp.wait_for_user` (lines 305-314): set the
state to `WAITING_FOR_USER` before the polling loop begins. -/
def wait_for_user_enter (s : PomodoroApp) : PomodoroApp :=
  { s with state := TimerState.WAITING_FOR_USER }

/-- One iteration of the polling loop of `PomodoroApp.wait_for_user`
(lines 316-322): while `running` and still `WAITING_FOR_USER`, query the
idle probe; if the probe reads under 3 seconds, start focus; otherwise
sleep and poll again.  The probe value is the parameter `idle_time`. -/
def wait_for_user_poll (idle_time : ℚ) (s : PomodoroApp) : PomodoroApp :=
  if s.running ∧ s.state = TimerState.WAITING_FOR_USER then
    if idle_time < 3 then start_focus s else s
  else s

/-- The timer-finished branch of `PomodoroApp.timer_loop`
(lines 332-345): in `FOCUS`, increment both counters, then choose the
rest type by `completed_sessions % sessions_until_long_rest == 0` on the
incremented counter and start that rest; in a rest state, enter
`WAITING_FOR_USER`. -/
def timer_finished (s : PomodoroApp) : PomodoroApp :=
  if s.state = TimerState.FOCUS then
    let s1 : PomodoroApp :=
      { s with completed_sessions := s.completed_sessions + 1
               sessions_today := s.sessions_today + 1 }
    start_rest (s1.completed_sessions % s1.sessions_until_long_rest == 0) s1
  else if s.state = TimerState.SHORT_REST ∨ s.state = TimerState.LONG_REST then
    wait_for_user_enter s
  else s

/-- One iteration of the `while self.running` loop of
`PomodoroApp.timer_loop` (lines 324-351), the tick of the state machine:
when not `running` the loop exits and nothing changes; in a timed state
with time left, sleep one second and decrement `time_remaining`; in a
timed state at zero, run the timer-finished branch (this branch contains
no sleep in the source, so it fires within the same one-second tick that
observes zero); in `WAITING_FOR_USER` or `IDLE` the loop only sleeps. -/
def timer_tick (s : PomodoroApp) : PomodoroApp :=
  if s.running then
    if s.state = TimerState.FOCUS ∨ s.state = TimerState.SHORT_REST ∨
        s.state = TimerState.LONG_REST then
      if s.time_remaining > 0 then
        { s with time_remaining := s.time_remaining - 1 }
      else
        timer_finished s
    else s
  else s

/-- Enablement of the "Start Focus" menu item as maintained by
`PomodoroApp.update_menu_state` (lines 209-230): the callback is set in
`IDLE` and `WAITING_FOR_USER` and cleared (disabled) in `FOCUS` and the
two rest states. -/
def start_button_enabled : TimerState → Bool
  | TimerState.IDLE => true
  | TimerState.FOCUS => false
  | TimerState.SHORT_REST => false
  | TimerState.LONG_REST => false
  | TimerState.WAITING_FOR_USER => true

/-- The user-visible "Start Focus" menu command: clicking the item runs
`start_focus` only when `update_menu_state` has left its callback set
for the current state; a disabled item does nothing. -/
def click_start_focus (s : PomodoroApp) : PomodoroApp :=
  if start_button_enabled s.state then start_focus s else s

/-- States reachable from `initState` under the operations of the
program: the menu commands, the timer tick, and the idle-probe poll with
an arbitrary probe reading. -/
inductive Reachable : PomodoroApp → Prop where
  | init : Reachable initState
  | start {s : PomodoroApp} : Reachable s → Reachable (start_focus s)
  | skipRest {s : PomodoroApp} : Reachable s → Reachable (skip_to_rest s)
  | skipFocus {s : PomodoroApp} : Reachable s → Reachable (skip_to_focus s)
  | stop {s : PomodoroApp} : Reachable s → Reachable (stop_timer s)
  | tick {s : PomodoroApp} : Reachable s → Reachable (timer_tick s)
  | poll {s : PomodoroApp} (idle_time : ℚ) :
      Reachable s → Reachable (wait_for_user_poll idle_time s)

/-- A sample mid-countdown focus state (three sessions already
completed), used to instantiate the theorems below. -/
def focusSample : PomodoroApp :=
  { initState with
    state := TimerState.FOCUS
    running := true
    time_remaining := 120
    completed_sessions := 3
    sessions_today := 3 }

/-- The sample focus state at the moment its countdown reaches zero. -/
def focusZeroSample : PomodoroApp :=
  { focusSample with time_remaining := 0 }

/-- A sample short-rest state, used to instantiate the theorems below. -/
def restSample : PomodoroApp :=
  { initState with
    state := TimerState.SHORT_REST
    running := true
    time_remaining := 60
    completed_sessions := 1
    sessions_today := 1 }

/-- A sample waiting-for-user state, used to instantiate the theorems
below. -/
def waitingSample : PomodoroApp :=
  { initState with
    state := TimerState.WAITING_FOR_USER
    running := true
    time_remaining := 0
    completed_sessions := 2
    sessions_today := 2 }

/-- The combined inductive invariant of the controller: the configured
durations are non-negative, the countdown is non-negative, and the two
session counters agree. -/
def GoodState (s : PomodoroApp) : Prop :=
  0 ≤ s.focus_duration ∧ 0 ≤ s.short_rest_duration ∧ 0 ≤ s.long_rest_duration ∧
    0 ≤ s.time_remaining ∧ s.completed_sessions = s.sessions_today

lemma goodState_start_focus {s : PomodoroApp} (h : GoodState s) :
    GoodState (start_focus s) := by
  obtain ⟨h1, h2, h3, h4, h5⟩ := h
  exact ⟨h1, h2, h3, h1, h5⟩

lemma goodState_start_rest {s : PomodoroApp} (b : Bool) (h : GoodState s) :
    GoodState (start_rest b s) := by
  obtain ⟨h1, h2, h3, h4, h5⟩ := h
  cases b
  · exact ⟨h1, h2, h3, h2, h5⟩
  · exact ⟨h1, h2, h3, h3, h5⟩

lemma goodState_skip_to_rest {s : PomodoroApp} (h : GoodState s) :
    GoodState (skip_to_rest s) := by
  unfold skip_to_rest
  split
  · exact goodState_start_rest _ h
  · exact h

lemma goodState_skip_to_focus {s : PomodoroApp} (h : GoodState s) :
    GoodState (skip_to_focus s) := by
  unfold skip_to_focus
  split
  · exact goodState_start_focus h
  · exact h

lemma goodState_stop_timer {s : PomodoroApp} (h : GoodState s) :
    GoodState (stop_timer s) := by
  obtain ⟨h1, h2, h3, h4, h5⟩ := h
  exact ⟨h1, h2, h3, le_refl 0, h5⟩

lemma goodState_timer_finished {s : PomodoroApp} (h : GoodState s) :
    GoodState (timer_finished s) := by
  obtain ⟨h1, h2, h3, h4, h5⟩ := h
  unfold timer_finished
  split
  · exact goodState_start_rest _ ⟨h1, h2, h3, h4, by simp [h5]⟩
  · split
    · exact ⟨h1, h2, h3, h4, h5⟩
    · exact ⟨h1, h2, h3, h4, h5⟩

lemma goodState_timer_tick {s : PomodoroApp} (h : GoodState s) :
    GoodState (timer_tick s) := by
  obtain ⟨h1, h2, h3, h4, h5⟩ := h
  unfold timer_tick
  split
  · split
    · split
      next htr =>
        exact ⟨h1, h2, h3, show (0:ℤ) ≤ s.time_remaining - 1 by omega, h5⟩
      next => exact goodState_timer_finished ⟨h1, h2, h3, h4, h5⟩
    · exact ⟨h1, h2, h3, h4, h5⟩
  · exact ⟨h1, h2, h3, h4, h5⟩

lemma goodState_wait_for_user_poll {s : PomodoroApp} (idle_time : ℚ)
    (h : GoodState s) : GoodState (wait_for_user_poll idle_time s) := by
  unfold wait_for_user_poll
  split
  · split
    · exact goodState_start_focus h
    · exact h
  · exact h

/-- Every reachable state satisfies the combined invariant. -/
lemma reachable_goodState {s : PomodoroApp} (h : Reachable s) : GoodState s := by
  induction h with
  | init => exact ⟨by decide, by decide, by decide, le_refl 0, rfl⟩
  | start _ ih => exact goodState_start_focus ih
  | skipRest _ ih => exact goodState_skip_to_rest ih
  | skipFocus _ ih => exact goodState_skip_to_focus ih
  | stop _ ih => exact goodState_stop_timer ih
  | tick _ ih => exact goodState_timer_tick ih
  | poll idle_time _ ih => exact goodState_wait_for_user_poll idle_time ih

lemma start_rest_completed (b : Bool) (s : PomodoroApp) :
    (start_rest b s).completed_sessions = s.completed_sessions := by
  cases b <;> rfl

lemma start_rest_today (b : Bool) (s : PomodoroApp) :
    (start_rest b s).sessions_today = s.sessions_today := by
  cases b <;> rfl

lemma start_rest_state (b : Bool) (s : PomodoroApp) :
    (start_rest b s).state =
      if b then TimerState.LONG_REST else TimerState.SHORT_REST := by
  cases b <;> rfl

lemma start_rest_time (b : Bool) (s : PomodoroApp) :
    (start_rest b s).time_remaining =
      if b then s.long_rest_duration else s.short_rest_duration := by
  cases b <;> rfl

/-- Claim C1: for every focus session and every threshold
`sessions_until_long_rest ≥ 1`, the rest type chosen by `skip_to_rest`
(which tests `(completed_sessions + 1) % N == 0` without incrementing
the counter) equals the rest type chosen by natural completion of that
same session (a tick at zero, which increments `completed_sessions`
first and then tests `completed_sessions % N == 0`). -/
theorem c1_skip_rest_type_matches_natural_completion (s : PomodoroApp)
    (hst : s.state = TimerState.FOCUS) (hrun : s.running = true)
    (hN : 1 ≤ s.sessions_until_long_rest) :
    (skip_to_rest s).state =
      (timer_tick { s with time_remaining := 0 }).state := by
  cases hb : (s.completed_sessions + 1) % s.sessions_until_long_rest == 0 <;>
    simp [skip_to_rest, timer_tick, timer_finished, start_rest, hst, hrun, hb]

/-- Witness for C1 at a concrete mid-countdown focus state. -/
theorem c1_skip_rest_type_matches_natural_completion_witness :
    (skip_to_rest focusSample).state =
      (timer_tick { focusSample with time_remaining := 0 }).state :=
  c1_skip_rest_type_matches_natural_completion focusSample rfl rfl (by decide)

/-- Claim C2: a natural focus completion (a tick in `FOCUS` with
`time_remaining == 0`) of the Nth session (N = `completed_sessions + 1`)
moves to `LONG_REST` iff `N % sessions_until_long_rest == 0`, and to
`SHORT_REST` otherwise. -/
theorem c2_natural_completion_rest_type (s : PomodoroApp)
    (hst : s.state = TimerState.FOCUS) (hrun : s.running = true)
    (h0 : s.time_remaining = 0) :
    ((timer_tick s).state = TimerState.LONG_REST ↔
        (s.completed_sessions + 1) % s.sessions_until_long_rest = 0) ∧
      ((timer_tick s).state = TimerState.SHORT_REST ↔
        ¬(s.completed_sessions + 1) % s.sessions_until_long_rest = 0) := by
  cases hb : (s.completed_sessions + 1) % s.sessions_until_long_rest == 0
  · rw [beq_eq_false_iff_ne] at hb
    simp [timer_tick, timer_finished, start_rest, hst, hrun, h0, hb]
  · rw [beq_iff_eq] at hb
    simp [timer_tick, timer_finished, start_rest, hst, hrun, h0, hb]

/-- Witness for C2 at a concrete focus state whose countdown just hit
zero (its 4th session, with the default threshold of 4). -/
theorem c2_natural_completion_rest_type_witness :
    ((timer_tick focusZeroSample).state = TimerState.LONG_REST ↔
        (focusZeroSample.completed_sessions + 1) %
          focusZeroSample.sessions_until_long_rest = 0) ∧
      ((timer_tick focusZeroSample).state = TimerState.SHORT_REST ↔
        ¬(focusZeroSample.completed_sessions + 1) %
          focusZeroSample.sessions_until_long_rest = 0) :=
  c2_natural_completion_rest_type focusZeroSample rfl rfl rfl

/-- Claim C3: from any of `FOCUS`, `SHORT_REST`, `LONG_REST`,
`WAITING_FOR_USER` (at any `time_remaining`), `stop_timer` yields `IDLE`
with `time_remaining == 0` and `running == false`, and a further tick of
the stopped controller changes nothing, so no later tick can decrement
`time_remaining`. -/
theorem c3_stop_yields_idle_and_halts (s : PomodoroApp)
    (hst : s.state = TimerState.FOCUS ∨ s.state = TimerState.SHORT_REST ∨
      s.state = TimerState.LONG_REST ∨ s.state = TimerState.WAITING_FOR_USER) :
    (stop_timer s).state = TimerState.IDLE ∧
      (stop_timer s).time_remaining = 0 ∧
      (stop_timer s).running = false ∧
      timer_tick (stop_timer s) = stop_timer s := by
  refine ⟨rfl, rfl, rfl, ?_⟩
  simp [timer_tick, stop_timer]

/-- Witness for C3 at a concrete mid-countdown focus state. -/
theorem c3_stop_yields_idle_and_halts_witness :
    (stop_timer focusSample).state = TimerState.IDLE ∧
      (stop_timer focusSample).time_remaining = 0 ∧
      (stop_timer focusSample).running = false ∧
      timer_tick (stop_timer focusSample) = stop_timer focusSample :=
  c3_stop_yields_idle_and_halts focusSample (Or.inl rfl)

/-- Claim C4: a natural focus completion (a tick in `FOCUS` with
`time_remaining == 0`) increments `completed_sessions` and
`sessions_today` by exactly 1, while `skip_to_rest`, `skip_to_focus` and
`stop_timer` leave both counters unchanged in every state. -/
theorem c4_counter_increments_and_frames (s : PomodoroApp)
    (hst : s.state = TimerState.FOCUS) (hrun : s.running = true)
    (h0 : s.time_remaining = 0) :
    (timer_tick s).completed_sessions = s.completed_sessions + 1 ∧
      (timer_tick s).sessions_today = s.sessions_today + 1 ∧
      (∀ t : PomodoroApp,
        (skip_to_rest t).completed_sessions = t.completed_sessions ∧
          (skip_to_rest t).sessions_today = t.sessions_today) ∧
      (∀ t : PomodoroApp,
        (skip_to_focus t).completed_sessions = t.completed_sessions ∧
          (skip_to_focus t).sessions_today = t.sessions_today) ∧
      (∀ t : PomodoroApp,
        (stop_timer t).completed_sessions = t.completed_sessions ∧
          (stop_timer t).sessions_today = t.sessions_today) := by
  refine ⟨?_, ?_, ?_, ?_, fun t => ⟨rfl, rfl⟩⟩
  · simp [timer_tick, timer_finished, hst, hrun, h0, start_rest_completed]
  · simp [timer_tick, timer_finished, hst, hrun, h0, start_rest_today]
  · intro t
    unfold skip_to_rest
    split
    · exact ⟨start_rest_completed _ t, start_rest_today _ t⟩
    · exact ⟨rfl, rfl⟩
  · intro t
    unfold skip_to_focus
    split
    · exact ⟨rfl, rfl⟩
    · exact ⟨rfl, rfl⟩

/-- Witness for C4 at a concrete focus state whose countdown just hit
zero. -/
theorem c4_counter_increments_and_frames_witness :
    (timer_tick focusZeroSample).completed_sessions =
        focusZeroSample.completed_sessions + 1 ∧
      (timer_tick focusZeroSample).sessions_today =
        focusZeroSample.sessions_today + 1 ∧
      (∀ t : PomodoroApp,
        (skip_to_rest t).completed_sessions = t.completed_sessions ∧
          (skip_to_rest t).sessions_today = t.sessions_today) ∧
      (∀ t : PomodoroApp,
        (skip_to_focus t).completed_sessions = t.completed_sessions ∧
          (skip_to_focus t).sessions_today = t.sessions_today) ∧
      (∀ t : PomodoroApp,
        (stop_timer t).completed_sessions = t.completed_sessions ∧
          (stop_timer t).sessions_today = t.sessions_today) :=
  c4_counter_increments_and_frames focusZeroSample rfl rfl rfl

/-- Claim C5: invoking the Start Focus command while already in `FOCUS`
is a no-op: `update_menu_state` has disabled the menu item's callback in
`FOCUS`, so the click changes neither the state nor the remaining time
(the whole controller state is unchanged). -/
theorem c5_start_focus_in_focus_is_noop (s : PomodoroApp)
    (hst : s.state = TimerState.FOCUS) : click_start_focus s = s := by
  unfold click_start_focus
  rw [hst]
  rfl

/-- Witness for C5 at a concrete mid-countdown focus state. -/
theorem c5_start_focus_in_focus_is_noop_witness :
    click_start_focus focusSample = focusSample :=
  c5_start_focus_in_focus_is_noop focusSample rfl

/-- Claim C6: in every timed state, a tick with `time_remaining > 0`
decrements `time_remaining` by exactly 1 and stays in the state;
`time_remaining` is never negative in any reachable state; and at a tick
observing `time_remaining == 0` the timer-finished transition fires
(that branch contains no sleep, so it belongs to the same one-second
tick) and the timed state is left — no tick is an active countdown at
zero, and no countdown runs past zero. -/
theorem c6_countdown_ticks (s : PomodoroApp)
    (htimed : s.state = TimerState.FOCUS ∨ s.state = TimerState.SHORT_REST ∨
      s.state = TimerState.LONG_REST)
    (hrun : s.running = true) :
    (0 < s.time_remaining →
        (timer_tick s).time_remaining = s.time_remaining - 1 ∧
          (timer_tick s).state = s.state) ∧
      (∀ t : PomodoroApp, Reachable t → 0 ≤ t.time_remaining) ∧
      (s.time_remaining = 0 →
        timer_tick s = timer_finished s ∧ (timer_tick s).state ≠ s.state) := by
  refine ⟨?_, fun t ht => (reachable_goodState ht).2.2.2.1, ?_⟩
  · intro hpos
    rcases htimed with hst | hst | hst <;> simp [timer_tick, hrun, hst, hpos]
  · intro h0
    have heq : timer_tick s = timer_finished s := by
      rcases htimed with hst | hst | hst <;> simp [timer_tick, hrun, hst, h0]
    refine ⟨heq, ?_⟩
    rw [heq]
    rcases htimed with hst | hst | hst
    · cases hb : (s.completed_sessions + 1) % s.sessions_until_long_rest == 0 <;>
        simp [timer_finished, start_rest, hst, hb]
    · simp [timer_finished, wait_for_user_enter, hst]
    · simp [timer_finished, wait_for_user_enter, hst]

/-- Witness for C6 at a concrete mid-countdown focus state. -/
theorem c6_countdown_ticks_witness :
    (0 < focusSample.time_remaining →
        (timer_tick focusSample).time_remaining =
            focusSample.time_remaining - 1 ∧
          (timer_tick focusSample).state = focusSample.state) ∧
      (∀ t : PomodoroApp, Reachable t → 0 ≤ t.time_remaining) ∧
      (focusSample.time_remaining = 0 →
        timer_tick focusSample = timer_finished focusSample ∧
          (timer_tick focusSample).state ≠ focusSample.state) :=
  c6_countdown_ticks focusSample (Or.inl rfl) rfl

/-- Claim C7: the skip commands are total and never error; when invalid
for the current state (`skip_to_rest` outside `FOCUS`, `skip_to_focus`
outside the two rest states) they return the state completely unchanged
— state, `time_remaining` and both counters included. -/
theorem c7_invalid_events_are_noops (s : PomodoroApp) :
    (s.state ≠ TimerState.FOCUS → skip_to_rest s = s) ∧
      (s.state ≠ TimerState.SHORT_REST ∧ s.state ≠ TimerState.LONG_REST →
        skip_to_focus s = s) := by
  constructor
  · intro h
    unfold skip_to_rest
    rw [if_neg h]
  · intro h
    unfold skip_to_focus
    rw [if_neg (fun hor => hor.elim h.1 h.2)]

/-- Witness for C7: both skips are no-ops in the initial idle state. -/
theorem c7_invalid_events_are_noops_witness :
    skip_to_rest initState = initState ∧ skip_to_focus initState = initState :=
  ⟨(c7_invalid_events_are_noops initState).1 (by decide),
    (c7_invalid_events_are_noops initState).2 ⟨by decide, by decide⟩⟩

/-- Claim C8: in `WAITING_FOR_USER` with the loop running, one poll of
the idle probe moves to `FOCUS` exactly when the probe reads under 3
seconds; for every reading of at least 3 seconds the state is unchanged
and the polling loop's condition (`running` and still waiting) keeps
holding, so polling continues. -/
theorem c8_waiting_poll_threshold (s : PomodoroApp) (idle_time : ℚ)
    (hst : s.state = TimerState.WAITING_FOR_USER) (hrun : s.running = true) :
    ((wait_for_user_poll idle_time s).state = TimerState.FOCUS ↔
        idle_time < 3) ∧
      (3 ≤ idle_time →
        wait_for_user_poll idle_time s = s ∧
          (wait_for_user_poll idle_time s).running = true ∧
          (wait_for_user_poll idle_time s).state =
            TimerState.WAITING_FOR_USER) := by
  unfold wait_for_user_poll
  rw [if_pos ⟨hrun, hst⟩]
  by_cases hidle : idle_time < 3
  · rw [if_pos hidle]
    exact ⟨by simp [start_focus, hidle],
      fun h3 => absurd hidle (not_lt.mpr h3)⟩
  · rw [if_neg hidle]
    exact ⟨by rw [hst]; simp [hidle], fun _ => ⟨rfl, hrun, hst⟩⟩

/-- Witness for C8 at a concrete waiting state: an active user (probe
reading 1s) resumes focus, an idle user (probe reading 5s) does not. -/
theorem c8_waiting_poll_threshold_witness :
    (wait_for_user_poll 1 waitingSample).state = TimerState.FOCUS ∧
      wait_for_user_poll 5 waitingSample = waitingSample :=
  ⟨(c8_waiting_poll_threshold waitingSample 1 rfl rfl).1.mpr (by decide),
    ((c8_waiting_poll_threshold waitingSample 5 rfl rfl).2 (by decide)).1⟩

/-- Claim C9: in every reachable state of the controller,
`completed_sessions == sessions_today`: both start at 0 and every
operation changes them by the same amount. -/
theorem c9_counters_agree (s : PomodoroApp) (h : Reachable s) :
    s.completed_sessions = s.sessions_today :=
  (reachable_goodState h).2.2.2.2

/-- Witness for C9 at a concrete reachable state: one tick after
starting focus from the initial state. -/
theorem c9_counters_agree_witness :
    (timer_tick (start_focus initState)).completed_sessions =
      (timer_tick (start_focus initState)).sessions_today :=
  c9_counters_agree (timer_tick (start_focus initState))
    (Reachable.tick (Reachable.start Reachable.init))

/-- Claim C10: `skip_to_rest` in `FOCUS` discards the remaining focus
time and installs the full configured duration of the chosen rest: the
long-rest duration when the long-rest rule selects a long rest, the
short-rest duration otherwise, whatever `time_remaining` was. -/
theorem c10_skip_installs_full_rest_duration (s : PomodoroApp)
    (hst : s.state = TimerState.FOCUS) :
    (skip_to_rest s).time_remaining =
      if (s.completed_sessions + 1) % s.sessions_until_long_rest = 0 then
        s.long_rest_duration
      else s.short_rest_duration := by
  unfold skip_to_rest
  rw [if_pos hst]
  cases hb : (s.completed_sessions + 1) % s.sessions_until_long_rest == 0
  · rw [beq_eq_false_iff_ne] at hb
    simp [start_rest, hb]
  · rw [beq_iff_eq] at hb
    simp [start_rest, hb]

/-- Witness for C10 at a concrete mid-countdown focus state (three
completed sessions, so the skipped 4th session earns the long rest). -/
theorem c10_skip_installs_full_rest_duration_witness :
    (skip_to_rest focusSample).time_remaining =
      if (focusSample.completed_sessions + 1) %
          focusSample.sessions_until_long_rest = 0 then
        focusSample.long_rest_duration
      else focusSample.short_rest_duration :=
  c10_skip_installs_full_rest_duration focusSample rfl
